import Mathlib

/-!
Verification of the Volcengine realtime protocol layer of OpenAvatarChat.

The Python modules under `src/handlers/realtime/volcengine/` are embedded
shallowly: byte strings become `List Nat` (each entry a byte value),
fallible operations return `Except PyErr`, and the external library calls
(`gzip.compress`, `gzip.decompress`, `json.dumps`) are abstracted as
function parameters, while `json.loads` / `str` decoding of a payload is
recorded symbolically by the `PayloadMsg` constructors.
-/

namespace Volc

/-- The Python exception kinds that the embedded code can raise.
`malformedFrame` exists only so that statements about a `MalformedFrame`
error can be written down; no function of the code ever produces it. -/
inductive PyErr where
  | indexError
  | valueError
  | overflowError
  | typeError
  | notImplementedError
  | jsonDecodeError
  | malformedFrame
  deriving DecidableEq, Repr

/-- Model of `bytes.__getitem__`: `res[i]` for a non-negative index raises
`IndexError` when `i` is out of range. -/
def pyIndex (xs : List Nat) (i : Nat) : Except PyErr Nat :=
  match xs.get? i with
  | some v => .ok v
  | none => .error .indexError

/-- Adjust one slice bound the way Python does: negative bounds count from
the end, and the result is clamped into `[0, len]`. -/
def pySliceAdj (len : Nat) (i : Int) : Nat :=
  let j := if i < 0 then i + len else i
  if j < 0 then 0 else if j > len then len else j.toNat

/-- Python slicing `xs[a:b]` (step 1): clamped, never raising. -/
def pySlice (xs : List Nat) (a b : Int) : List Nat :=
  (xs.take (pySliceAdj xs.length b)).drop (pySliceAdj xs.length a)

/-- Model of `int.from_bytes(bs, "big", signed=False)`. -/
def fromBytesBE (bs : List Nat) : Nat :=
  bs.foldl (fun a b => a * 256 + b) 0

/-- Model of `int.from_bytes(bs, "big", signed=True)`. -/
def fromBytesSignedBE (bs : List Nat) : Int :=
  let n := fromBytesBE bs
  if 2 * n < 2 ^ (8 * bs.length) then (n : Int)
  else (n : Int) - 2 ^ (8 * bs.length)

/-- Big-endian digits of `n` over `k` bytes (the value written by
`int.to_bytes` when it does not overflow). -/
def natToBytesBE : Nat → Nat → List Nat
  | 0, _ => []
  | k + 1, n => natToBytesBE k (n / 256) ++ [n % 256]

/-- Model of `n.to_bytes(k, 'big')`: raises `OverflowError` when `n` needs more
than `k` bytes. -/
def intToBytes (n k : Nat) : Except PyErr (List Nat) :=
  if n < 256 ^ k then .ok (natToBytesBE k n) else .error .overflowError

/-- Model of `bytearray.append`: it accepts only values in `[0, 255]`. -/
def byteOk (n : Nat) : Except PyErr Nat :=
  if n < 256 then .ok n else .error .valueError

/-! ### Protocol constants (`protocol_parser.py`) -/

def CLIENT_FULL_REQUEST : Nat := 1
def CLIENT_AUDIO_ONLY_REQUEST : Nat := 2
def SERVER_FULL_RESPONSE : Nat := 9
def SERVER_ACK : Nat := 11
def SERVER_ERROR_RESPONSE : Nat := 15
def NEG_SEQUENCE : Nat := 2
def MSG_WITH_EVENT : Nat := 4
def NO_SERIALIZATION : Nat := 0
def JSON : Nat := 1
def THRIFT : Nat := 3
def NO_COMPRESSION : Nat := 0
def GZIP : Nat := 1

/-- Embedding of `generate_header` from `protocol_parser.py`: four packed bytes followed
by the extension bytes.  `header_size = int(len(extension_header)/4) + 1`. -/
def generate_header (version message_type message_type_specific_flags
    serial_method compression_type reserved_data : Nat)
    (extension_header : List Nat) : Except PyErr (List Nat) := do
  let header_size := extension_header.length / 4 + 1
  let b0 ← byteOk ((version <<< 4) ||| header_size)
  let b1 ← byteOk ((message_type <<< 4) ||| message_type_specific_flags)
  let b2 ← byteOk ((serial_method <<< 4) ||| compression_type)
  let b3 ← byteOk reserved_data
  pure ([b0, b1, b2, b3] ++ extension_header)

/-- Value of `generate_header()` with all default arguments
(version 1, CLIENT_FULL_REQUEST, MSG_WITH_EVENT, JSON, GZIP, 0, empty). -/
def generate_header_default : Except PyErr (List Nat) :=
  generate_header 1 CLIENT_FULL_REQUEST MSG_WITH_EVENT JSON GZIP 0 []

/-! ### `parse_response` (`protocol_parser.py`, lines 85-151) -/

/-- The header fields computed at the top of `parse_response`
(lines 106-112). -/
structure HeaderFields where
  protocol_version : Nat
  header_size : Nat
  message_type : Nat
  message_type_specific_flags : Nat
  serialization_method : Nat
  message_compression : Nat
  reserved : Nat
  deriving DecidableEq, Repr

/-- Reading the four header bytes of a frame; `res[0]`..`res[3]` raise
`IndexError` on a buffer shorter than 4 bytes. -/
def parse_header_fields (res : List Nat) : Except PyErr HeaderFields := do
  let b0 ← pyIndex res 0
  let b1 ← pyIndex res 1
  let b2 ← pyIndex res 2
  let b3 ← pyIndex res 3
  pure { protocol_version := b0 / 16
         header_size := b0 % 16
         message_type := b1 / 16
         message_type_specific_flags := b1 % 16
         serialization_method := b2 / 16
         message_compression := b2 % 16
         reserved := b3 }

/-- The value stored in `result['payload_msg']`.  `jsonOf bs` stands for
`json.loads(str(bs, "utf-8"))`, `strOf bs` for `str(bs, "utf-8")`, and
`raw bs` for the bytes themselves (serialization `NO_SERIALIZATION`). -/
inductive PayloadMsg where
  | raw (bs : List Nat)
  | jsonOf (bs : List Nat)
  | strOf (bs : List Nat)
  deriving DecidableEq, Repr

/-- The `result` dictionary of `parse_response`: each field is `none` when
the corresponding key is absent. -/
structure ParseResult where
  message_type : Option String := none
  seq : Option Nat := none
  event : Option Nat := none
  session_id : Option (List Nat) := none
  code : Option Nat := none
  payload_msg : Option PayloadMsg := none
  payload_size : Option Nat := none
  deriving DecidableEq, Repr

/-- The keys present in the `result` dictionary, in the order the source
can insert them. -/
def resultKeys (r : ParseResult) : List String :=
  (if r.message_type.isSome then ["message_type"] else []) ++
  (if r.seq.isSome then ["seq"] else []) ++
  (if r.event.isSome then ["event"] else []) ++
  (if r.session_id.isSome then ["session_id"] else []) ++
  (if r.code.isSome then ["code"] else []) ++
  (if r.payload_msg.isSome then ["payload_msg"] else []) ++
  (if r.payload_size.isSome then ["payload_size"] else [])

/-- Lines 114-151 of `parse_response`: everything after the header bytes.
All slicing clamps, so the section extraction never raises; the final
value-decoding step is totalized here (`decompress` stands for a
succeeding `gzip.decompress`, and the `PayloadMsg` constructors record
`json.loads` / `str` decoding symbolically) - its failure modes are
modelled explicitly by `parse_response_checked` below.  The source stores
`result['session_id'] = str(session_id)`; we keep the raw slice, no claim
depends on the `str` rendering.  Note the source reads both `seq` and
`event` from `payload[:4]` (only `start` is advanced), and both with
`signed=False`. -/
def parse_payload (decompress : List Nat → List Nat) (hf : HeaderFields)
    (res : List Nat) : ParseResult :=
  let payload := pySlice res (hf.header_size * 4) res.length
  if hf.message_type = SERVER_FULL_RESPONSE ∨ hf.message_type = SERVER_ACK then
    let mt := if hf.message_type = SERVER_ACK
      then "SERVER_ACK" else "SERVER_FULL_RESPONSE"
    let seq := if hf.message_type_specific_flags &&& NEG_SEQUENCE > 0
      then some (fromBytesBE (payload.take 4)) else none
    let start0 := if hf.message_type_specific_flags &&& NEG_SEQUENCE > 0
      then 4 else 0
    let event := if hf.message_type_specific_flags &&& MSG_WITH_EVENT > 0
      then some (fromBytesBE (payload.take 4)) else none
    let start := if hf.message_type_specific_flags &&& MSG_WITH_EVENT > 0
      then start0 + 4 else start0
    let payload1 := payload.drop start
    let session_id_size := fromBytesSignedBE (payload1.take 4)
    let session_id := pySlice payload1 4 (session_id_size + 4)
    let payload2 := pySlice payload1 (4 + session_id_size) payload1.length
    let payload_size := fromBytesBE (payload2.take 4)
    let payload_msg := payload2.drop 4
    let m1 := if hf.message_compression = GZIP then decompress payload_msg
      else payload_msg
    let m2 : PayloadMsg := if hf.serialization_method = JSON then .jsonOf m1
      else if hf.serialization_method ≠ NO_SERIALIZATION then .strOf m1
      else .raw m1
    { message_type := some mt, seq := seq, event := event
      session_id := some session_id
      payload_msg := some m2, payload_size := some payload_size }
  else if hf.message_type = SERVER_ERROR_RESPONSE then
    let code := fromBytesBE (payload.take 4)
    let payload_size := fromBytesBE (pySlice payload 4 8)
    let payload_msg := payload.drop 8
    let m1 := if hf.message_compression = GZIP then decompress payload_msg
      else payload_msg
    let m2 : PayloadMsg := if hf.serialization_method = JSON then .jsonOf m1
      else if hf.serialization_method ≠ NO_SERIALIZATION then .strOf m1
      else .raw m1
    { code := some code, payload_msg := some m2
      payload_size := some payload_size }
  else
    {}

/-- Embedding of `parse_response` from `protocol_parser.py` on a `bytes` input
(the `isinstance(res, str)` guard does not apply to byte input). -/
def parse_response (decompress : List Nat → List Nat) (res : List Nat) :
    Except PyErr ParseResult := do
  let hf ← parse_header_fields res
  pure (parse_payload decompress hf res)

/-- The payload value-decoding step of `parse_response` (lines 141-148)
with its failure modes explicit: `decompress` models `gzip.decompress`,
which raises on malformed input (as an `Except`-valued parameter), and
`jsonDec` models `json.loads(str(bs, "utf-8"))`, returning `none`
exactly when it would raise - `json.loads('')` on an empty truncated
payload raises `JSONDecodeError` (a `ValueError`), for instance. -/
def decode_payload_msg (decompress : List Nat → Except PyErr (List Nat))
    (jsonDec : List Nat → Option PayloadMsg)
    (message_compression serialization_method : Nat) (bs : List Nat) :
    Except PyErr PayloadMsg :=
  match if message_compression = GZIP then decompress bs else .ok bs with
  | .error e => .error e
  | .ok m1 =>
    if serialization_method = JSON then
      match jsonDec m1 with
      | some v => .ok v
      | none => .error .jsonDecodeError
    else if serialization_method ≠ NO_SERIALIZATION then .ok (.strOf m1)
    else .ok (.raw m1)

/-- Re-embedding of `parse_response` (lines 104-151) that keeps the
failure modes of the payload value-decoding step: identical to
`parse_response` in the header read, the branch structure and the
(clamping) section slicing, but the final `gzip.decompress` /
`json.loads` step goes through `decode_payload_msg` and can fail. -/
def parse_response_checked
    (decompress : List Nat → Except PyErr (List Nat))
    (jsonDec : List Nat → Option PayloadMsg) (res : List Nat) :
    Except PyErr ParseResult := do
  let hf ← parse_header_fields res
  let payload := pySlice res (hf.header_size * 4) res.length
  if hf.message_type = SERVER_FULL_RESPONSE ∨ hf.message_type = SERVER_ACK then
    let mt := if hf.message_type = SERVER_ACK
      then "SERVER_ACK" else "SERVER_FULL_RESPONSE"
    let seq := if hf.message_type_specific_flags &&& NEG_SEQUENCE > 0
      then some (fromBytesBE (payload.take 4)) else none
    let start0 := if hf.message_type_specific_flags &&& NEG_SEQUENCE > 0
      then 4 else 0
    let event := if hf.message_type_specific_flags &&& MSG_WITH_EVENT > 0
      then some (fromBytesBE (payload.take 4)) else none
    let start := if hf.message_type_specific_flags &&& MSG_WITH_EVENT > 0
      then start0 + 4 else start0
    let payload1 := payload.drop start
    let session_id_size := fromBytesSignedBE (payload1.take 4)
    let session_id := pySlice payload1 4 (session_id_size + 4)
    let payload2 := pySlice payload1 (4 + session_id_size) payload1.length
    let payload_size := fromBytesBE (payload2.take 4)
    let m2 ← decode_payload_msg decompress jsonDec hf.message_compression
      hf.serialization_method (payload2.drop 4)
    pure { message_type := some mt, seq := seq, event := event
           session_id := some session_id
           payload_msg := some m2, payload_size := some payload_size }
  else if hf.message_type = SERVER_ERROR_RESPONSE then
    let code := fromBytesBE (payload.take 4)
    let payload_size := fromBytesBE (pySlice payload 4 8)
    let m2 ← decode_payload_msg decompress jsonDec hf.message_compression
      hf.serialization_method (payload.drop 8)
    pure { code := some code, payload_msg := some m2
           payload_size := some payload_size }
  else
    pure {}

/-! ### Client message builders (`volcengine_client.py`) -/

/-- Model of `str.encode(s)`: the UTF-8 bytes of `s`. -/
def strEncode (s : String) : List Nat :=
  s.toUTF8.toList.map (fun b => b.toNat)

/-- The mutable attributes a `VolcEngineRealtimeClient` carries after
`__init__` (besides the websocket itself). -/
structure ClientState where
  logid : String
  session_id : String
  output_audio_format : String
  deriving DecidableEq, Repr

/-- Embedding of `send_audio_data`: header (audio-only request, no serialization, GZIP),
4-byte event `200`, session-id length (in characters) and bytes, then the
gzip-compressed audio preceded by its 4-byte length.  `compress` stands for
`gzip.compress`. -/
def send_audio_data (st : ClientState) (compress : List Nat → List Nat)
    (audio : List Nat) : Except PyErr (List Nat) := do
  let hdr ← generate_header 1 CLIENT_AUDIO_ONLY_REQUEST MSG_WITH_EVENT
    NO_SERIALIZATION GZIP 0 []
  let ev ← intToBytes 200 4
  let sidLen ← intToBytes st.session_id.length 4
  let payload_bytes := compress audio
  let plLen ← intToBytes payload_bytes.length 4
  pure (hdr ++ ev ++ sidLen ++ strEncode st.session_id ++ plLen ++ payload_bytes)

/-- The frame built in the body of `chat_tts_text` (after the
`is_user_querying` guard): default header, event `500`, session-id section,
length-prefixed compressed payload.  `dumps` stands for
`json.dumps({"start": .., "end": .., "content": ..}).encode()`. -/
def chat_tts_frame (st : ClientState)
    (dumps : Bool → Bool → String → List Nat)
    (compress : List Nat → List Nat)
    (start_ end_ : Bool) (content : String) : Except PyErr (List Nat) := do
  let payload_bytes := compress (dumps start_ end_ content)
  let hdr ← generate_header_default
  let ev ← intToBytes 500 4
  let sidLen ← intToBytes st.session_id.length 4
  let plLen ← intToBytes payload_bytes.length 4
  pure (hdr ++ ev ++ sidLen ++ strEncode st.session_id ++ plLen ++ payload_bytes)

/-- Embedding of `chat_tts_text`: when `is_user_querying` is true the coroutine returns
at once, before any payload is built or sent.  The returned pair is the
client state after the call and the list of frames sent on the websocket. -/
def chat_tts_text (st : ClientState)
    (dumps : Bool → Bool → String → List Nat)
    (compress : List Nat → List Nat)
    (is_user_querying start_ end_ : Bool) (content : String) :
    ClientState × List (Except PyErr (List Nat)) :=
  if is_user_querying then (st, [])
  else (st, [chat_tts_frame st dumps compress start_ end_ content])

/-! ### `ProtocolHandler` (`protocol_handler.py`) -/

def SERIALIZATION_JSON : Nat := JSON
def SERIALIZATION_PROTOBUF : Nat := THRIFT
def COMPRESSION_GZIP : Nat := GZIP
def COMPRESSION_NONE : Nat := NO_COMPRESSION

structure ProtocolHandler where
  use_compression : Bool
  use_protobuf : Bool
  deriving DecidableEq, Repr

def ProtocolHandler.serialization (h : ProtocolHandler) : Nat :=
  if h.use_protobuf then SERIALIZATION_PROTOBUF else SERIALIZATION_JSON

def ProtocolHandler.compression (h : ProtocolHandler) : Nat :=
  if h.use_compression then COMPRESSION_GZIP else COMPRESSION_NONE

/-- Embedding of `ProtocolHandler._encode_message`.  With `use_protobuf` it raises
`NotImplementedError` before anything else.  Otherwise it serializes and
(optionally) compresses the payload and then calls
`generate_header(msg_type=..., msg_serialization=..., msg_compression=...,
reserved=0)` - but `generate_header`'s parameters are named `message_type`,
`serial_method`, `compression_type` and `reserved_data`, so the call raises
`TypeError` (unexpected keyword argument) before any header bytes exist;
the surrounding `except` clause logs and re-raises the same exception.
`dumpsMsg` stands for `json.dumps(message).encode('utf-8')`. -/
def encode_message (h : ProtocolHandler) (dumpsMsg : List Nat)
    (compress : List Nat → List Nat) (msg_type : Nat) :
    Except PyErr (List Nat) :=
  if h.use_protobuf then .error .notImplementedError
  else
    let _payload := if h.use_compression then compress dumpsMsg else dumpsMsg
    .error .typeError

/-- Embedding of `ProtocolHandler.create_audio_message`: it likewise calls
`generate_header(msg_type=..., msg_serialization=..., msg_compression=...,
reserved=sequence_id)` with keyword arguments that do not exist in
`generate_header`'s signature, so it raises `TypeError` on its first
statement, before the compression branch is reached. -/
def create_audio_message (h : ProtocolHandler) (audio_data : List Nat)
    (sequence_id : Nat) : Except PyErr (List Nat) :=
  .error .typeError

/-- Embedding of `ProtocolHandler.create_hello_message`: it builds the fixed Hello dict and
delegates to `_encode_message` with `MSG_TYPE_FULL_CLIENT_REQUEST`. -/
def create_hello_message (h : ProtocolHandler) (dumpsMsg : List Nat)
    (compress : List Nat → List Nat) : Except PyErr (List Nat) :=
  encode_message h dumpsMsg compress CLIENT_FULL_REQUEST

/-- Embedding of `ProtocolHandler.is_keepalive_needed`:
`(current_time - last_activity_time) >= keepalive_interval`.  Times are
modelled as rationals. -/
def is_keepalive_needed (last_activity_time current_time : ℚ)
    (keepalive_interval : ℚ) : Bool :=
  decide (current_time - last_activity_time ≥ keepalive_interval)

/-! ### Chat text accumulation (`realtime_handler_volcengine.py`) -/

/-- Python `str.strip()` with no argument: remove leading and trailing
whitespace (modelled for ASCII whitespace, which covers every string the
handler sees in the claims). -/
def pyStrip (s : String) : String :=
  ⟨((s.data.dropWhile Char.isWhitespace).reverse.dropWhile
      Char.isWhitespace).reverse⟩

/-- The chat attributes the handler lazily installs on the context:
`chat_buffer` and `chat_session_active`.  `none` models a context on which
`hasattr(context, 'chat_buffer')` is still false. -/
structure ChatState where
  chat_buffer : String
  chat_session_active : Bool
  deriving DecidableEq, Repr

/-- Embedding of `_flush_chat_buffer`: emit the stripped buffer when it is non-blank,
then clear the buffer and deactivate the session.  The second component is
the list of messages put on `text_output_queue`. -/
def flush_chat_buffer (st : ChatState) : ChatState × List String :=
  let out := if pyStrip st.chat_buffer ≠ "" then [pyStrip st.chat_buffer] else []
  (⟨"", false⟩, out)

/-- Embedding of `_handle_chat_response` (event 550) on a dict payload whose
`content` field is `content` (`payload_msg.get('content', '')`). -/
def handle_chat_response (ctx : Option ChatState) (content : String) :
    Option ChatState × List String :=
  let st := ctx.getD ⟨"", false⟩
  if content = "" then
    let out := if st.chat_session_active then (flush_chat_buffer st).2 else []
    (some ⟨"", true⟩, out)
  else if st.chat_session_active then
    (some ⟨st.chat_buffer ++ content, st.chat_session_active⟩, [])
  else if pyStrip content ≠ "" then
    (some st, [pyStrip content])
  else
    (some st, [])

/-- Embedding of `_handle_chat_session_end`: flush only when the chat attributes exist
and a session is active. -/
def handle_chat_session_end (ctx : Option ChatState) :
    Option ChatState × List String :=
  match ctx with
  | none => (none, [])
  | some st =>
    if st.chat_session_active then
      let (st1, out) := flush_chat_buffer st
      (some st1, out)
    else (some st, [])

/-- One inbound server event as dispatched by `_parse_and_handle_response`:
event 550 goes to `_handle_chat_response`, events 152 and 153 go to
`_handle_chat_session_end`.  Other events do not touch the chat state. -/
def chat_step (ctx : Option ChatState) (ev : Nat) (content : String) :
    Option ChatState × List String :=
  if ev = 550 then handle_chat_response ctx content
  else if ev = 152 ∨ ev = 153 then handle_chat_session_end ctx
  else (ctx, [])

/-- Run a list of `(event, content)` pairs, collecting every message put
on the text output queue in order. -/
def chat_run (ctx : Option ChatState) :
    List (Nat × String) → Option ChatState × List String
  | [] => (ctx, [])
  | (ev, c) :: rest =>
    let (ctx1, out1) := chat_step ctx ev c
    let (ctx2, out2) := chat_run ctx1 rest
    (ctx2, out1 ++ out2)

/-! ### General lemmas about the byte helpers -/

theorem natToBytesBE_length (k n : Nat) : (natToBytesBE k n).length = k := by
  induction k generalizing n with
  | zero => rfl
  | succ k ih => simp [natToBytesBE, ih]

theorem fromBytesBE_append_one (xs : List Nat) (b : Nat) :
    fromBytesBE (xs ++ [b]) = fromBytesBE xs * 256 + b := by
  simp [fromBytesBE, List.foldl_append]

theorem fromBytesBE_natToBytesBE (k n : Nat) (h : n < 256 ^ k) :
    fromBytesBE (natToBytesBE k n) = n := by
  induction k generalizing n with
  | zero =>
    interval_cases n
    rfl
  | succ k ih =>
    have hdiv : n / 256 < 256 ^ k := by
      rw [Nat.div_lt_iff_lt_mul (by norm_num)]
      calc n < 256 ^ (k + 1) := h
        _ = 256 ^ k * 256 := by ring
    rw [natToBytesBE, fromBytesBE_append_one, ih _ hdiv]
    omega

theorem pySliceAdj_coe (len i : Nat) : pySliceAdj len (i : Int) = min i len := by
  simp only [pySliceAdj]
  have h0 : ¬((i : Int) < 0) := by omega
  rw [if_neg h0, if_neg h0]
  split
  · next h => omega
  · next h =>
    have : i ≤ len := by exact_mod_cast not_lt.mp h
    omega

theorem pySlice_coe (xs : List Nat) (a b : Nat) :
    pySlice xs (a : Int) (b : Int) =
      (xs.take (min b xs.length)).drop (min a xs.length) := by
  simp [pySlice, pySliceAdj_coe]

theorem pySlice_all_from (xs : List Nat) (k : Nat) (hk : k ≤ xs.length) :
    pySlice xs (k : Int) (xs.length : Int) = xs.drop k := by
  rw [pySlice_coe, min_self, List.take_length, min_eq_left hk]

theorem parse_header_fields_cons (b0 b1 b2 b3 : Nat) (tail : List Nat) :
    parse_header_fields (b0 :: b1 :: b2 :: b3 :: tail) =
      .ok { protocol_version := b0 / 16, header_size := b0 % 16
            message_type := b1 / 16, message_type_specific_flags := b1 % 16
            serialization_method := b2 / 16, message_compression := b2 % 16
            reserved := b3 } := rfl

/-! ### Claim theorems -/

/-- C1: starting from a context without chat attributes, the event
sequence `550("")`, `550("Hello")`, `550(" world")`, `152` pushes exactly
one message, `"Hello world"`, to the text output queue. -/
theorem chat_text_delta_accumulation :
    (chat_run none [(550, ""), (550, "Hello"), (550, " world"), (152, "")]).2
      = ["Hello world"] := by decide

/-- C9 counterexample: with `last_activity_time = 0`,
`current_time = 30` and `interval = 30` the code returns `true`
(`>=` comparison) although the idle time does not exceed the interval,
refuting the claim's "returns true exactly when the idle time ... exceeds
the configured keepalive interval". -/
theorem keepalive_at_exact_interval :
    is_keepalive_needed 0 30 30 = true ∧ ¬((30 : ℚ) - 0 > 30) := by
  constructor
  · simp [is_keepalive_needed]
  · norm_num

/-- C9 (amended): `is_keepalive_needed` returns true exactly when the idle
time since the last activity is at least (`≥`) the configured keepalive
interval; in particular at `t0+31` with interval 30 it is true and at
`t0+29` it is false. -/
theorem keepalive_policy :
    (∀ t0 c i : ℚ, is_keepalive_needed t0 c i = true ↔ c - t0 ≥ i) ∧
    (∀ t0 : ℚ, is_keepalive_needed t0 (t0 + 31) 30 = true ∧
      is_keepalive_needed t0 (t0 + 29) 30 = false) := by
  refine ⟨fun t0 c i => by simp [is_keepalive_needed], fun t0 => ⟨?_, ?_⟩⟩
  · have h31 : t0 + 31 - t0 = (31 : ℚ) := by ring
    simp [is_keepalive_needed, h31]
    norm_num
  · have h29 : t0 + 29 - t0 = (29 : ℚ) := by ring
    simp [is_keepalive_needed, h29]
    norm_num

/-- C10: `chat_tts_text` called with `is_user_querying = True` returns at
once: no frame is sent on the websocket and the client state is unchanged,
for every combination of the remaining arguments. -/
theorem chat_tts_text_barge_in_guard
    (st : ClientState) (dumps : Bool → Bool → String → List Nat)
    (compress : List Nat → List Nat) (start_ end_ : Bool) (content : String) :
    chat_tts_text st dumps compress true start_ end_ content = (st, []) := by
  simp [chat_tts_text]

theorem except_bind_ok {α β : Type} (a : α) (f : α → Except PyErr β) :
    (Except.ok a >>= f) = f a := rfl

theorem except_pure {α : Type} (a : α) :
    (pure a : Except PyErr α) = .ok a := rfl

theorem drop_min (xs : List Nat) (a : Nat) :
    xs.drop (min a xs.length) = xs.drop a := by
  rcases le_total a xs.length with h | h
  · rw [min_eq_left h]
  · rw [min_eq_right h, List.drop_length, List.drop_eq_nil_of_le h]

theorem pySlice_from (xs : List Nat) (a b : Nat) (hb : xs.length ≤ b) :
    pySlice xs (a : Int) (b : Int) = xs.drop a := by
  rw [pySlice_coe, min_eq_right hb, List.take_length, drop_min]

theorem pySlice_upto (xs : List Nat) (a b : Nat) (hab : a ≤ b)
    (hb : b ≤ xs.length) :
    pySlice xs (a : Int) (b : Int) = (xs.take b).drop a := by
  rw [pySlice_coe, min_eq_left hb, min_eq_left (hab.trans hb)]

theorem nibble_pack_facts :
    ∀ v < 16, ∀ h < 16, ((v <<< 4) ||| h) / 16 = v ∧
      ((v <<< 4) ||| h) % 16 = h ∧ (v <<< 4) ||| h < 256 := by decide

/-- C2 (code bug): on a SERVER_FULL_RESPONSE frame with both NEG_SEQUENCE
and MSG_WITH_EVENT set, the parser reads the event code from the same
first four payload bytes as the sequence number (`payload[:4]` twice; the
`start` offset is advanced but never used in the reads), so `event`
always equals `seq`; and the sequence is read with `signed=False`, so the
all-ones bytes decode to `4294967295` rather than the signed `-1`. -/
theorem parse_seq_event_overlap :
    parse_response id
      [17, 150, 0, 0, 0, 0, 0, 1, 0, 0, 0, 2, 0, 0, 0, 0, 0, 0, 0, 0] =
      .ok { message_type := some "SERVER_FULL_RESPONSE", seq := some 1,
            event := some 1, session_id := some [],
            payload_msg := some (.raw []), payload_size := some 0 } ∧
    parse_response id
      [17, 150, 0, 0, 255, 255, 255, 255, 0, 0, 0, 2,
       0, 0, 0, 0, 0, 0, 0, 0] =
      .ok { message_type := some "SERVER_FULL_RESPONSE",
            seq := some 4294967295, event := some 4294967295,
            session_id := some [],
            payload_msg := some (.raw []), payload_size := some 0 } ∧
    fromBytesSignedBE [255, 255, 255, 255] = -1 := by
  refine ⟨rfl, rfl, ?_⟩
  simp [fromBytesSignedBE, fromBytesBE]

/-- C3 counterexample: a 2-byte buffer makes `parse_response` raise
`IndexError` (at `res[2]`), not the `MalformedFrame` the claim names;
no `MalformedFrame` error exists anywhere in the code. -/
theorem parse_two_bytes_raises_index_error :
    parse_response id [17, 145] = .error .indexError ∧
    PyErr.indexError ≠ PyErr.malformedFrame :=
  ⟨rfl, by decide⟩

theorem except_bind_error {α β : Type} (e : PyErr)
    (f : α → Except PyErr β) : (Except.error e >>= f) = .error e := rfl

theorem except_bind_pure_ne_error {α β : Type} (x : Except PyErr α)
    (g : α → β) (e : PyErr) (hx : x ≠ .error e) :
    (x >>= fun v => pure (g v) : Except PyErr β) ≠ .error e := by
  cases x with
  | error e2 =>
    rw [except_bind_error]
    intro h
    injection h with he
    exact hx (by rw [he])
  | ok v =>
    rw [except_bind_ok, except_pure]
    simp

theorem decode_payload_msg_ne_malformed
    (decompress : List Nat → Except PyErr (List Nat))
    (jsonDec : List Nat → Option PayloadMsg)
    (comp ser : Nat) (bs : List Nat)
    (hd : ∀ b, decompress b ≠ .error .malformedFrame) :
    decode_payload_msg decompress jsonDec comp ser bs ≠
      .error .malformedFrame := by
  unfold decode_payload_msg
  split
  · next e heq =>
    intro h
    injection h with he
    subst he
    by_cases hg : comp = GZIP
    · rw [if_pos hg] at heq
      exact hd bs heq
    · rw [if_neg hg] at heq
      simp at heq
  · next m1 heq =>
    split
    · split
      · simp
      · simp
    · split
      · simp
      · simp

theorem decode_payload_msg_total (d : List Nat → List Nat) (comp ser : Nat)
    (bs : List Nat) :
    decode_payload_msg (fun b => .ok (d b)) (fun b => some (.jsonOf b))
      comp ser bs =
    .ok (let m1 := if comp = GZIP then d bs else bs
         if ser = JSON then .jsonOf m1
         else if ser ≠ NO_SERIALIZATION then .strOf m1 else .raw m1) := by
  unfold decode_payload_msg
  split
  · next e heq =>
    by_cases hg : comp = GZIP
    · rw [if_pos hg] at heq
      simp at heq
    · rw [if_neg hg] at heq
      simp at heq
  · next m1 heq =>
    have hm1 : m1 = if comp = GZIP then d bs else bs := by
      by_cases hg : comp = GZIP
      · rw [if_pos hg] at heq ⊢
        injection heq with h
        exact h.symm
      · rw [if_neg hg] at heq ⊢
        injection heq with h
        exact h.symm
    subst hm1
    split
    · rfl
    · split
      · rfl
      · rfl

/-- Sanity check for the re-embedding: when the decode step cannot fail
(total `decompress`, always-succeeding `json.loads`), the checked parser
coincides with `parse_response`. -/
theorem parse_response_checked_agrees (d : List Nat → List Nat)
    (res : List Nat) :
    parse_response_checked (fun bs => .ok (d bs))
      (fun bs => some (.jsonOf bs)) res = parse_response d res := by
  unfold parse_response_checked parse_response
  cases hph : parse_header_fields res with
  | error e => rfl
  | ok hf =>
    simp only [except_bind_ok]
    unfold parse_payload
    split
    · rw [decode_payload_msg_total, except_bind_ok]
    · split
      · rw [decode_payload_msg_total, except_bind_ok]
      · rfl

/-- C3 (amended): a buffer shorter than 4 bytes makes `parse_response`
fail with `IndexError` (the bounds-checked byte access errors instead of
reading out of bounds), not `MalformedFrame`, which the code does not
define.  A buffer of at least 4 bytes is never rejected for being
shorter than its declared header size: the header fields are always read
successfully and the later sections are sliced with clamping, so any
failure past the header comes from the payload value-decoding step -
`gzip.decompress` on bad input or `json.loads` on a truncated payload,
as on the 4-byte frame `[18, 144, 16, 0]` declaring 8 header bytes,
which reaches `json.loads('')` and raises `JSONDecodeError` - and is
never a `MalformedFrame` on any input. -/
theorem parse_short_buffer :
    (∀ (decompress : List Nat → Except PyErr (List Nat))
        (jsonDec : List Nat → Option PayloadMsg) (res : List Nat),
      res.length < 4 →
      parse_response_checked decompress jsonDec res = .error .indexError) ∧
    (∀ res : List Nat, 4 ≤ res.length →
      ∃ hf, parse_header_fields res = .ok hf) ∧
    (∀ (decompress : List Nat → Except PyErr (List Nat))
        (jsonDec : List Nat → Option PayloadMsg) (res : List Nat),
      (∀ bs, decompress bs ≠ .error .malformedFrame) →
      parse_response_checked decompress jsonDec res ≠
        .error .malformedFrame) ∧
    parse_response_checked (fun bs => .ok bs)
      (fun bs => if bs = [] then none else some (.jsonOf bs))
      [18, 144, 16, 0] = .error .jsonDecodeError := by
  have h1 : ∀ (dc : List Nat → Except PyErr (List Nat))
      (jd : List Nat → Option PayloadMsg) (res : List Nat),
      res.length < 4 →
      parse_response_checked dc jd res = .error .indexError := by
    intro dc jd res h
    match res, h with
    | [], _ => rfl
    | [a], _ => rfl
    | [a, b], _ => rfl
    | [a, b, c], _ => rfl
    | a :: b :: c :: e :: t, h =>
      simp only [List.length_cons] at h
      omega
  refine ⟨h1, ?_, ?_, rfl⟩
  · intro res h
    match res, h with
    | [], h => simp at h
    | [a], h => simp at h
    | [a, b], h => simp at h
    | [a, b, c], h => simp at h
    | a :: b :: c :: e :: t, _ => exact ⟨_, rfl⟩
  · intro dc jd res hd
    match res with
    | [] =>
      intro h
      rw [h1 dc jd [] (by simp)] at h
      simp at h
    | [a] =>
      intro h
      rw [h1 dc jd [a] (by simp)] at h
      simp at h
    | [a, b] =>
      intro h
      rw [h1 dc jd [a, b] (by simp)] at h
      simp at h
    | [a, b, c] =>
      intro h
      rw [h1 dc jd [a, b, c] (by simp)] at h
      simp at h
    | a :: b :: c :: e :: t =>
      simp only [parse_response_checked, parse_header_fields_cons,
        except_bind_ok]
      split
      · exact except_bind_pure_ne_error _ _ _
          (decode_payload_msg_ne_malformed dc jd _ _ _ hd)
      · split
        · exact except_bind_pure_ne_error _ _ _
            (decode_payload_msg_ne_malformed dc jd _ _ _ hd)
        · simp [except_pure]

/-- C3 witness: the short-buffer theorem applied to the 2-byte buffer
`[17, 145]`, to a well-formed 4-byte frame, and (for the
never-MalformedFrame part) to the 4-byte frame whose declared header
size is 8 bytes. -/
theorem parse_short_buffer_witness :
    parse_response_checked (fun bs => .ok bs)
      (fun bs => some (.jsonOf bs)) [17, 145] = .error .indexError ∧
    (∃ hf, parse_header_fields [17, 20, 17, 0] = .ok hf) ∧
    parse_response_checked (fun bs => .ok bs)
      (fun bs => some (.jsonOf bs)) [18, 144, 16, 0] ≠
      .error .malformedFrame :=
  ⟨parse_short_buffer.1 _ _ [17, 145] (by decide),
   parse_short_buffer.2.1 [17, 20, 17, 0] (by decide),
   parse_short_buffer.2.2.1 _ _ [18, 144, 16, 0] (fun bs => by simp)⟩

/-- C5 counterexample: a well-formed frame with the unknown message type
`CLIENT_FULL_REQUEST` (nibble 1) parses to the EMPTY result - the raw
header fields (version, header size, flags, ...) are computed into local
variables but never stored, so the returned dictionary has no keys at
all, contradicting "returns a result containing the raw parsed header
fields". -/
theorem parse_unknown_type_empty_result :
    parse_response id [17, 20, 17, 0] = .ok {} ∧
    resultKeys {} = [] :=
  ⟨rfl, rfl⟩

/-- C5 (amended): for every frame of at least 4 bytes whose message type
is none of SERVER_FULL_RESPONSE, SERVER_ACK, SERVER_ERROR_RESPONSE,
`parse_response` succeeds and returns the empty result: no header fields
and no payload fields are populated. -/
theorem parse_unknown_type (d : List Nat → List Nat) (res : List Nat)
    (hf : HeaderFields) (hok : parse_header_fields res = .ok hf)
    (h9 : hf.message_type ≠ SERVER_FULL_RESPONSE)
    (h11 : hf.message_type ≠ SERVER_ACK)
    (h15 : hf.message_type ≠ SERVER_ERROR_RESPONSE) :
    parse_response d res = .ok {} ∧ resultKeys ({} : ParseResult) = [] := by
  refine ⟨?_, rfl⟩
  simp [parse_response, hok, except_bind_ok, parse_payload, h9, h11, h15]

/-- C5 witness: the unknown-message-type theorem applied to the concrete
frame `[17, 20, 17, 0]` (message type nibble 1). -/
theorem parse_unknown_type_witness :
    parse_response id [17, 20, 17, 0] = .ok {} ∧
    resultKeys ({} : ParseResult) = [] :=
  parse_unknown_type id [17, 20, 17, 0]
    { protocol_version := 1, header_size := 1, message_type := 1
      message_type_specific_flags := 4, serialization_method := 1
      message_compression := 1, reserved := 0 }
    rfl (by decide) (by decide) (by decide)

/-- C4 counterexample: with a 60-byte extension, `header_size` is 16 and
overflows the 4-bit nibble: the encoded first byte is `(1 <<< 4) ||| 16 =
16`, whose low nibble decodes to 0, not `60/4 + 1 = 16`; the decoder then
locates the payload at offset 0 instead of 64. -/
theorem header_size_nibble_overflow :
    generate_header 1 1 4 1 1 0 (List.replicate 60 0) =
      .ok (16 :: 20 :: 17 :: 0 :: List.replicate 60 0) ∧
    (parse_header_fields (16 :: 20 :: 17 :: 0 :: List.replicate 60 0)).map
      (fun hf => hf.header_size) = .ok 0 ∧
    (0 : Nat) ≠ (List.replicate 60 0).length / 4 + 1 :=
  ⟨rfl, rfl, by decide⟩

/-- C4 (amended): the encode/decode round-trip holds for every header
whose fields fit their bit widths AND whose extension length (a multiple
of 4) is at most 56 bytes, so that `header_size = len/4 + 1` fits in its
4-bit nibble; the nibble then equals `len/4 + 1` and the payload is
located exactly `4 * header_size` bytes from frame start. -/
theorem header_roundtrip (v mt fl sm ct rd : Nat) (ext payload : List Nat)
    (hv : v < 16) (hmt : mt < 16) (hfl : fl < 16) (hsm : sm < 16)
    (hct : ct < 16) (hrd : rd < 256) (hm : ext.length % 4 = 0)
    (hlen : ext.length ≤ 56) :
    ∃ hdr, generate_header v mt fl sm ct rd ext = .ok hdr ∧
      parse_header_fields (hdr ++ payload) = .ok
        { protocol_version := v, header_size := ext.length / 4 + 1
          message_type := mt, message_type_specific_flags := fl
          serialization_method := sm, message_compression := ct
          reserved := rd } ∧
      (ext.length / 4 + 1) * 4 = 4 + ext.length ∧
      (hdr ++ payload).drop ((ext.length / 4 + 1) * 4) = payload := by
  have hhs16 : ext.length / 4 + 1 < 16 := by omega
  obtain ⟨d0, m0, b0⟩ := nibble_pack_facts v hv (ext.length / 4 + 1) hhs16
  obtain ⟨d1, m1, b1⟩ := nibble_pack_facts mt hmt fl hfl
  obtain ⟨d2, m2, b2⟩ := nibble_pack_facts sm hsm ct hct
  refine ⟨[(v <<< 4) ||| (ext.length / 4 + 1), (mt <<< 4) ||| fl,
           (sm <<< 4) ||| ct, rd] ++ ext, ?_, ?_, ?_, ?_⟩
  · simp [generate_header, byteOk, b0, b1, b2, hrd, except_bind_ok]
  · rw [List.append_assoc]
    show parse_header_fields (((v <<< 4) ||| (ext.length / 4 + 1)) ::
      ((mt <<< 4) ||| fl) :: ((sm <<< 4) ||| ct) :: rd ::
      (ext ++ payload)) = _
    rw [parse_header_fields_cons]
    simp [d0, m0, d1, m1, d2, m2]
  · omega
  · have h4 : (ext.length / 4 + 1) * 4 =
        ([(v <<< 4) ||| (ext.length / 4 + 1), (mt <<< 4) ||| fl,
          (sm <<< 4) ||| ct, rd] ++ ext).length := by
      simp
      omega
    rw [h4, List.drop_left]

/-- C4 witness: the round-trip theorem applied to the concrete header
(version 1, message type 9, flags 6, JSON, GZIP, reserved 7) with an
8-byte extension and a 2-byte payload. -/
theorem header_roundtrip_witness :
    ∃ hdr, generate_header 1 9 6 1 1 7 [1, 2, 3, 4, 5, 6, 7, 8] = .ok hdr ∧
      parse_header_fields (hdr ++ [250, 251]) = .ok
        { protocol_version := 1, header_size := 3
          message_type := 9, message_type_specific_flags := 6
          serialization_method := 1, message_compression := 1
          reserved := 7 } ∧
      (3 : Nat) * 4 = 4 + 8 ∧
      (hdr ++ [250, 251]).drop 12 = [250, 251] :=
  header_roundtrip 1 9 6 1 1 7 [1, 2, 3, 4, 5, 6, 7, 8] [250, 251]
    (by decide) (by decide) (by decide) (by decide) (by decide) (by decide)
    (by decide) (by decide)

/-- C6 (code bug): the client-side builder `send_audio_data` does satisfy
the wire invariant - the 4-byte field before the payload encodes exactly
the length of the compressed payload bytes that follow it, compression is
applied to the payload only - but the `ProtocolHandler` builders produce
no message at all: `_encode_message` (here for `create_hello_message`)
and `create_audio_message` call `generate_header` with keyword arguments
that do not exist in its signature and raise `TypeError`, and
`_encode_message` as written would append the payload directly after the
4-byte header with no length field anyway. -/
theorem payload_length_invariant :
    (∀ (st : ClientState) (compress : List Nat → List Nat)
        (audio : List Nat),
      st.session_id.length < 2 ^ 32 → (compress audio).length < 2 ^ 32 →
      send_audio_data st compress audio = .ok
        ([17, 36, 1, 0] ++ natToBytesBE 4 200 ++
          natToBytesBE 4 st.session_id.length ++ strEncode st.session_id ++
          natToBytesBE 4 (compress audio).length ++ compress audio) ∧
      fromBytesBE (natToBytesBE 4 (compress audio).length) =
        (compress audio).length) ∧
    (∀ (dumpsMsg : List Nat) (compress : List Nat → List Nat),
      create_hello_message ⟨true, false⟩ dumpsMsg compress =
        .error .typeError) ∧
    create_audio_message ⟨true, false⟩ [1, 2, 3] 0 = .error .typeError := by
  refine ⟨?_, fun dumpsMsg compress => rfl, rfl⟩
  intro st compress audio h1 h2
  have h256 : (256 : Nat) ^ 4 = 2 ^ 32 := by norm_num
  have hc1 : st.session_id.length < 256 ^ 4 := by rw [h256]; exact h1
  have hc2 : (compress audio).length < 256 ^ 4 := by rw [h256]; exact h2
  constructor
  · have hg : generate_header 1 CLIENT_AUDIO_ONLY_REQUEST MSG_WITH_EVENT
        NO_SERIALIZATION GZIP 0 [] = .ok [17, 36, 1, 0] := rfl
    have he : intToBytes 200 4 = .ok (natToBytesBE 4 200) := rfl
    have h200 : (200 : Nat) < 256 ^ 4 := by norm_num
    simp only [send_audio_data, hg, he, intToBytes, hc1, hc2, h200, if_true,
      except_bind_ok, except_pure, List.cons_append, List.nil_append,
      List.append_assoc]
  · exact fromBytesBE_natToBytesBE 4 _ hc2

/-- C6 witness: the invariant instantiated at session id `"a"`, identity
compression and the 3-byte audio chunk `[1, 2, 3]`, together with the
failing `ProtocolHandler` evaluations. -/
theorem payload_length_invariant_witness :
    (send_audio_data ⟨"", "a", "pcm"⟩ id [1, 2, 3] = .ok
      ([17, 36, 1, 0] ++ natToBytesBE 4 200 ++ natToBytesBE 4 1 ++
        strEncode "a" ++ natToBytesBE 4 3 ++ [1, 2, 3]) ∧
     fromBytesBE (natToBytesBE 4 3) = 3) ∧
    create_audio_message ⟨true, false⟩ [1, 2, 3] 0 = .error .typeError :=
  ⟨payload_length_invariant.1 ⟨"", "a", "pcm"⟩ id [1, 2, 3]
    (by decide) (by decide),
   payload_length_invariant.2.2⟩

/-- C7 counterexample: with `use_protobuf = True`,
`create_audio_message` fails with `TypeError` (the `generate_header`
keyword mismatch), not with the serialization-rejection
`NotImplementedError`, so not every builder fails with a
SerializationError-style exception. -/
theorem protobuf_audio_error_kind :
    create_audio_message ⟨true, true⟩ [1, 2, 3] 0 = .error .typeError ∧
    PyErr.typeError ≠ PyErr.notImplementedError :=
  ⟨rfl, by decide⟩

/-- C7 (amended): with `use_protobuf = True` every builder fails
synchronously and produces no wire bytes - the `_encode_message`-based
builders with `NotImplementedError` (the explicit THRIFT rejection,
nothing silently substituted), `create_audio_message` with the
`TypeError` caused by its `generate_header` keyword mismatch - under
either compression setting. -/
theorem protobuf_rejection (uc : Bool) (dumpsMsg : List Nat)
    (compress : List Nat → List Nat) (msg_type : Nat) (audio : List Nat)
    (sequence_id : Nat) :
    encode_message ⟨uc, true⟩ dumpsMsg compress msg_type =
      .error .notImplementedError ∧
    create_hello_message ⟨uc, true⟩ dumpsMsg compress =
      .error .notImplementedError ∧
    create_audio_message ⟨uc, true⟩ audio sequence_id = .error .typeError :=
  ⟨rfl, rfl, rfl⟩

/-- UTF-8 bytes of the error payload text with reason "bad audio"
(an opening brace, `"reason":"bad audio"`, a closing brace). -/
def chatErrorReasonBytes : List Nat :=
  [123, 34, 114, 101, 97, 115, 111, 110, 34, 58, 34, 98, 97, 100, 32,
   97, 117, 100, 105, 111, 34, 125]

/-- Shape lemma for error frames under JSON serialization and GZIP
compression: the parser takes the 4-byte code, the 4-byte declared size,
decompresses the remaining bytes and decodes them as JSON; it populates
no seq, event or session-id field. -/
theorem parse_error_frame_gzip (d : List Nat → List Nat)
    (k0 k1 k2 k3 l0 l1 l2 l3 : Nat) (body : List Nat) :
    parse_response d (17 :: 240 :: 17 :: 0 :: k0 :: k1 :: k2 :: k3 ::
      l0 :: l1 :: l2 :: l3 :: body) =
      .ok { code := some (fromBytesBE [k0, k1, k2, k3])
            payload_msg := some (.jsonOf (d body))
            payload_size := some (fromBytesBE [l0, l1, l2, l3]) } := by
  have hph : parse_header_fields (17 :: 240 :: 17 :: 0 :: k0 :: k1 ::
      k2 :: k3 :: l0 :: l1 :: l2 :: l3 :: body) =
      .ok { protocol_version := 1, header_size := 1, message_type := 15
            message_type_specific_flags := 0, serialization_method := 1
            message_compression := 1, reserved := 0 } := rfl
  have hcondA : ((15 : Nat) = SERVER_FULL_RESPONSE ∨
      (15 : Nat) = SERVER_ACK) = False := by
    simp [SERVER_FULL_RESPONSE, SERVER_ACK]
  have hcondB : ((15 : Nat) = SERVER_ERROR_RESPONSE) = True := by
    simp [SERVER_ERROR_RESPONSE]
  have hcondC : ((1 : Nat) = GZIP) = True := by simp [GZIP]
  have hcondD : ((1 : Nat) = JSON) = True := by simp [JSON]
  have hpay : pySlice (17 :: 240 :: 17 :: 0 :: k0 :: k1 :: k2 :: k3 ::
      l0 :: l1 :: l2 :: l3 :: body) (((1 : Nat) : Int) * 4)
      (((17 :: 240 :: 17 :: 0 :: k0 :: k1 :: k2 :: k3 ::
        l0 :: l1 :: l2 :: l3 :: body).length : Nat) : Int) =
      k0 :: k1 :: k2 :: k3 :: l0 :: l1 :: l2 :: l3 :: body := by
    have h := pySlice_from (17 :: 240 :: 17 :: 0 :: k0 :: k1 :: k2 ::
      k3 :: l0 :: l1 :: l2 :: l3 :: body) 4 (17 :: 240 :: 17 :: 0 ::
      k0 :: k1 :: k2 :: k3 :: l0 :: l1 :: l2 :: l3 :: body).length
      (le_refl _)
    rw [show (((1 : Nat) : Int) * 4) = ((4 : Nat) : Int) from rfl, h]
    rfl
  have hslice : pySlice (k0 :: k1 :: k2 :: k3 :: l0 :: l1 :: l2 :: l3 ::
      body) (4 : Int) (8 : Int) = [l0, l1, l2, l3] := by
    have h := pySlice_upto (k0 :: k1 :: k2 :: k3 :: l0 :: l1 :: l2 ::
      l3 :: body) 4 8 (by omega) (by simp only [List.length_cons]; omega)
    rw [show ((4 : Nat) : Int) = (4 : Int) from rfl,
        show ((8 : Nat) : Int) = (8 : Int) from rfl] at h
    rw [h]
    rfl
  have htake : List.take 4 (k0 :: k1 :: k2 :: k3 :: l0 :: l1 :: l2 ::
      l3 :: body) = [k0, k1, k2, k3] := rfl
  have hdrop8 : List.drop 8 (k0 :: k1 :: k2 :: k3 :: l0 :: l1 :: l2 ::
      l3 :: body) = body := rfl
  simp only [parse_response, hph, except_bind_ok, except_pure,
    parse_payload, hpay, htake, hslice, hdrop8, hcondA, hcondB, hcondC,
    hcondD, if_true, if_false]

/-- C8: an error frame (message type nibble 15) carrying code 40000 and
the JSON payload with reason "bad audio" parses to a result exposing
`code = 40000` and the decoded JSON payload, both with NO_COMPRESSION and
with GZIP (where the wire carries any bytes that `gzip.decompress` maps
back to the JSON text); no sequence, event or session-id field is
populated (the result record holds `none` for them). -/
theorem error_response_decoding :
    (∀ d : List Nat → List Nat,
      parse_response d ([17, 240, 16, 0] ++ natToBytesBE 4 40000 ++
        natToBytesBE 4 22 ++ chatErrorReasonBytes) =
      .ok { code := some 40000,
            payload_msg := some (.jsonOf chatErrorReasonBytes),
            payload_size := some 22 }) ∧
    (∀ (d : List Nat → List Nat) (c : List Nat),
      d c = chatErrorReasonBytes → c.length < 2 ^ 32 →
      parse_response d ([17, 240, 17, 0] ++ natToBytesBE 4 40000 ++
        natToBytesBE 4 c.length ++ c) =
      .ok { code := some 40000,
            payload_msg := some (.jsonOf chatErrorReasonBytes),
            payload_size := some c.length }) := by
  constructor
  · intro d
    rfl
  · intro d c hdc hlen
    have h256 : (256 : Nat) ^ 4 = 2 ^ 32 := by norm_num
    have hc4 : c.length < 256 ^ 4 := by rw [h256]; exact hlen
    have hnb : natToBytesBE 4 c.length =
        [c.length / 256 / 256 / 256 % 256, c.length / 256 / 256 % 256,
         c.length / 256 % 256, c.length % 256] := rfl
    have hframe : [17, 240, 17, 0] ++ natToBytesBE 4 40000 ++
        natToBytesBE 4 c.length ++ c =
        17 :: 240 :: 17 :: 0 :: 0 :: 0 :: 156 :: 64 ::
          (c.length / 256 / 256 / 256 % 256) ::
          (c.length / 256 / 256 % 256) ::
          (c.length / 256 % 256) :: (c.length % 256) :: c := by
      rw [hnb]
      rfl
    have hsize : fromBytesBE [c.length / 256 / 256 / 256 % 256,
        c.length / 256 / 256 % 256, c.length / 256 % 256,
        c.length % 256] = c.length := by
      rw [← hnb]
      exact fromBytesBE_natToBytesBE 4 _ hc4
    rw [hframe, parse_error_frame_gzip, hsize, hdc]
    rfl

/-- C8 witness: the GZIP conjunct applied with the identity as
`gzip.decompress` and the JSON text itself as the wire payload. -/
theorem error_response_decoding_witness :
    parse_response id ([17, 240, 17, 0] ++ natToBytesBE 4 40000 ++
      natToBytesBE 4 chatErrorReasonBytes.length ++ chatErrorReasonBytes) =
    .ok { code := some 40000,
          payload_msg := some (.jsonOf chatErrorReasonBytes),
          payload_size := some chatErrorReasonBytes.length } :=
  error_response_decoding.2 id chatErrorReasonBytes rfl (by decide)

/-- C7 witness: the protobuf-rejection theorem at concrete arguments. -/
theorem protobuf_rejection_witness :
    encode_message ⟨true, true⟩ [] id 1 = .error .notImplementedError ∧
    create_hello_message ⟨true, true⟩ [] id = .error .notImplementedError ∧
    create_audio_message ⟨true, true⟩ [1] 2 = .error .typeError :=
  protobuf_rejection true [] id 1 [1] 2

/-- C9 witness: the keepalive policy at `t0 = 0`. -/
theorem keepalive_policy_witness :
    (is_keepalive_needed 0 31 30 = true ↔ (31 : ℚ) - 0 ≥ 30) ∧
    is_keepalive_needed 0 (0 + 31) 30 = true ∧
    is_keepalive_needed 0 (0 + 29) 30 = false :=
  ⟨keepalive_policy.1 0 31 30, keepalive_policy.2 0⟩

/-- C10 witness: the barge-in guard at concrete arguments. -/
theorem chat_tts_text_barge_in_guard_witness :
    chat_tts_text ⟨"", "s", "pcm"⟩ (fun _ _ _ => []) id true false false
      "hi" = (⟨"", "s", "pcm"⟩, []) :=
  chat_tts_text_barge_in_guard ⟨"", "s", "pcm"⟩ (fun _ _ _ => []) id
    false false "hi"

end Volc
